import Mathlib

/-!
Shallow embedding of the ChronicleWeaver core (session state machine, turn
orchestration results, persistence gateway, and the character stat
normalizer) for checking the specification claims against the source.

The normalizer definitions below transcribe the post-processing block of
`generateCharacterFromImage` (src/services/geminiService.ts, lines 171-217);
a second, separately transcribed copy mirrors the duplicated block in
`generateRandomCharacterDetails` (lines 363-402).
-/

/-- `STAT_POINTS_TOTAL = 10` in geminiService.ts. -/
def STAT_POINTS_TOTAL : Int := 10

/-- `STAT_MIN = 1` in geminiService.ts. -/
def STAT_MIN : Int := 1

/-- `STAT_MAX = 5` in geminiService.ts. -/
def STAT_MAX : Int := 5

/-- `Math.max(STAT_MIN, Math.min(STAT_MAX, v))`: the per-stat clamp applied to
each of strength, dexterity, intelligence, charisma. -/
def clampStat (v : Int) : Int := max STAT_MIN (min STAT_MAX v)

/-- One iteration of the `for (const stat of stats)` body for a single stat:
given the stat value and the current `remainingPoints`, returns the new value,
the new `remainingPoints`, and whether this stat changed.  Transcribes the
two guarded branches (`remainingPoints > 0 && stat.value < STAT_MAX` increments,
`remainingPoints < 0 && stat.value > STAT_MIN` decrements).  The source breaks
out of the `for` loop as soon as `remainingPoints === 0`; running the remaining
iterations is then a no-op (both guards are false at `remainingPoints = 0`),
so the unrolled sequence of four `stepStat`s is the whole pass. -/
def stepStat (v rem : Int) : Int × Int × Bool :=
  if rem > 0 ∧ v < STAT_MAX then (v + 1, rem - 1, true)
  else if rem < 0 ∧ v > STAT_MIN then (v - 1, rem + 1, true)
  else (v, rem, false)

/-- One full pass of the `for (const stat of stats)` loop over the fixed order
strength, dexterity, intelligence, charisma.  Returns the four updated values,
the updated `remainingPoints`, and the pass's `changed` flag. -/
def passStats (s d i c rem : Int) : (Int × Int × Int × Int) × Int × Bool :=
  let r1 := stepStat s rem
  let r2 := stepStat d r1.2.1
  let r3 := stepStat i r2.2.1
  let r4 := stepStat c r3.2.1
  ((r1.1, r2.1, r3.1, r4.1), r4.2.1, r1.2.2 || r2.2.2 || r3.2.2 || r4.2.2)

/-- Full behaviour of one `stepStat`: value/remaining conservation, `|rem|`
never grows, it strictly shrinks on a change, and a non-change leaves
everything alone because both guards failed; bounds are preserved. -/
theorem stepStat_spec (v rem : Int) :
    (stepStat v rem).1 + (stepStat v rem).2.1 = v + rem ∧
    (stepStat v rem).2.1.natAbs ≤ rem.natAbs ∧
    ((stepStat v rem).2.2 = true → (stepStat v rem).2.1.natAbs < rem.natAbs) ∧
    ((stepStat v rem).2.2 = false → (stepStat v rem).1 = v ∧ (stepStat v rem).2.1 = rem ∧
      ¬(rem > 0 ∧ v < STAT_MAX) ∧ ¬(rem < 0 ∧ v > STAT_MIN)) ∧
    (STAT_MIN ≤ v → v ≤ STAT_MAX → STAT_MIN ≤ (stepStat v rem).1 ∧ (stepStat v rem).1 ≤ STAT_MAX) := by
  unfold stepStat STAT_MAX STAT_MIN
  split_ifs <;> simp_all <;> omega

/-- If a pass reports `changed`, the absolute value of `remainingPoints`
strictly decreased (this is the termination measure of the `while` loop). -/
theorem passStats_changed_lt (s d i c rem : Int)
    (h : (passStats s d i c rem).2.2 = true) :
    (passStats s d i c rem).2.1.natAbs < rem.natAbs := by
  have h1 := stepStat_spec s rem
  have h2 := stepStat_spec d (stepStat s rem).2.1
  have h3 := stepStat_spec i (stepStat d (stepStat s rem).2.1).2.1
  have h4 := stepStat_spec c (stepStat i (stepStat d (stepStat s rem).2.1).2.1).2.1
  simp only [passStats] at h ⊢
  simp only [Bool.or_eq_true] at h
  obtain ⟨-, le1, lt1, -, -⟩ := h1
  obtain ⟨-, le2, lt2, -, -⟩ := h2
  obtain ⟨-, le3, lt3, -, -⟩ := h3
  obtain ⟨-, le4, lt4, -, -⟩ := h4
  rcases h with ((hf | hf) | hf) | hf
  · have := lt1 hf; omega
  · have := lt2 hf; omega
  · have := lt3 hf; omega
  · have := lt4 hf; omega

/-- `while (remainingPoints !== 0)` loop of the normalizer: run passes until
`remainingPoints` reaches 0, or until a full pass changes nothing (the
`if (!changed && remainingPoints !== 0) break` guard), in which case the
current (clamped) values are returned as-is. -/
def distributeStats (s d i c rem : Int) : Int × Int × Int × Int :=
  if rem = 0 then (s, d, i, c)
  else
    let p := passStats s d i c rem
    if h : p.2.2 = true then
      distributeStats p.1.1 p.1.2.1 p.1.2.2.1 p.1.2.2.2 p.2.1
    else p.1
termination_by rem.natAbs
decreasing_by exact passStats_changed_lt s d i c rem h

/-- The same loop with an explicit bound on the number of passes: `fuel`
counts how many times the `while` condition may be re-entered.  Used to state
the bounded-termination claim. -/
def distributeStatsFuel : Nat → Int → Int → Int → Int → Int → Int × Int × Int × Int
  | 0, s, d, i, c, _ => (s, d, i, c)
  | fuel + 1, s, d, i, c, rem =>
    if rem = 0 then (s, d, i, c)
    else
      let p := passStats s d i c rem
      if p.2.2 = true then
        distributeStatsFuel fuel p.1.1 p.1.2.1 p.1.2.2.1 p.1.2.2.2 p.2.1
      else p.1

/-- The stat normalization of `generateCharacterFromImage` (lines 171-217):
clamp each stat into `[STAT_MIN, STAT_MAX]`, compute
`remainingPoints = STAT_POINTS_TOTAL - currentTotal`, then run the
adjustment loop. -/
def normalizeStats (strength dexterity intelligence charisma : Int) :
    Int × Int × Int × Int :=
  let s := clampStat strength
  let d := clampStat dexterity
  let i := clampStat intelligence
  let c := clampStat charisma
  distributeStats s d i c (STAT_POINTS_TOTAL - (s + d + i + c))

/-- The loop body does nothing once `remainingPoints = 0`. -/
theorem distributeStats_zero (s d i c : Int) : distributeStats s d i c 0 = (s, d, i, c) := by
  rw [distributeStats]
  simp

/-- Loop step equation: when `rem ≠ 0` and the pass changed something, the
loop continues on the pass's output. -/
theorem distributeStats_changed (s d i c rem : Int) (hrem : rem ≠ 0)
    (hch : (passStats s d i c rem).2.2 = true) :
    distributeStats s d i c rem =
      distributeStats (passStats s d i c rem).1.1 (passStats s d i c rem).1.2.1
        (passStats s d i c rem).1.2.2.1 (passStats s d i c rem).1.2.2.2
        (passStats s d i c rem).2.1 := by
  rw [distributeStats]
  simp only [if_neg hrem]
  rw [dif_pos hch]

/-- Loop exit equation: when `rem ≠ 0` but the pass changed nothing, the loop
breaks and returns the pass's (unchanged) values. -/
theorem distributeStats_stuck (s d i c rem : Int) (hrem : rem ≠ 0)
    (hch : ¬(passStats s d i c rem).2.2 = true) :
    distributeStats s d i c rem = (passStats s d i c rem).1 := by
  rw [distributeStats]
  simp only [if_neg hrem]
  rw [dif_neg hch]

/-- When all four values are within bounds, the sum invariant
`s + d + i + c + rem = 10` holds, and `rem ≠ 0`, one pass keeps the values in
bounds, preserves the invariant, and reports a change. -/
theorem passStats_spec (s d i c rem : Int)
    (hs1 : STAT_MIN ≤ s) (hs2 : s ≤ STAT_MAX) (hd1 : STAT_MIN ≤ d) (hd2 : d ≤ STAT_MAX)
    (hi1 : STAT_MIN ≤ i) (hi2 : i ≤ STAT_MAX) (hc1 : STAT_MIN ≤ c) (hc2 : c ≤ STAT_MAX)
    (hsum : s + d + i + c + rem = STAT_POINTS_TOTAL) (hrem : rem ≠ 0) :
    STAT_MIN ≤ (passStats s d i c rem).1.1 ∧ (passStats s d i c rem).1.1 ≤ STAT_MAX ∧
    STAT_MIN ≤ (passStats s d i c rem).1.2.1 ∧ (passStats s d i c rem).1.2.1 ≤ STAT_MAX ∧
    STAT_MIN ≤ (passStats s d i c rem).1.2.2.1 ∧ (passStats s d i c rem).1.2.2.1 ≤ STAT_MAX ∧
    STAT_MIN ≤ (passStats s d i c rem).1.2.2.2 ∧ (passStats s d i c rem).1.2.2.2 ≤ STAT_MAX ∧
    (passStats s d i c rem).1.1 + (passStats s d i c rem).1.2.1 +
      (passStats s d i c rem).1.2.2.1 + (passStats s d i c rem).1.2.2.2 +
      (passStats s d i c rem).2.1 = STAT_POINTS_TOTAL ∧
    (passStats s d i c rem).2.2 = true := by
  obtain ⟨e1, -, -, f1, bd1⟩ := stepStat_spec s rem
  obtain ⟨e2, -, -, f2, bd2⟩ := stepStat_spec d (stepStat s rem).2.1
  obtain ⟨e3, -, -, f3, bd3⟩ := stepStat_spec i (stepStat d (stepStat s rem).2.1).2.1
  obtain ⟨e4, -, -, f4, bd4⟩ :=
    stepStat_spec c (stepStat i (stepStat d (stepStat s rem).2.1).2.1).2.1
  obtain ⟨g1, g2⟩ := bd1 hs1 hs2
  obtain ⟨g3, g4⟩ := bd2 hd1 hd2
  obtain ⟨g5, g6⟩ := bd3 hi1 hi2
  obtain ⟨g7, g8⟩ := bd4 hc1 hc2
  have p1 : (passStats s d i c rem).1.1 = (stepStat s rem).1 := rfl
  have p2 : (passStats s d i c rem).1.2.1 = (stepStat d (stepStat s rem).2.1).1 := rfl
  have p3 : (passStats s d i c rem).1.2.2.1 =
    (stepStat i (stepStat d (stepStat s rem).2.1).2.1).1 := rfl
  have p4 : (passStats s d i c rem).1.2.2.2 =
    (stepStat c (stepStat i (stepStat d (stepStat s rem).2.1).2.1).2.1).1 := rfl
  have p5 : (passStats s d i c rem).2.1 =
    (stepStat c (stepStat i (stepStat d (stepStat s rem).2.1).2.1).2.1).2.1 := rfl
  have p6 : (passStats s d i c rem).2.2 =
    ((stepStat s rem).2.2 || (stepStat d (stepStat s rem).2.1).2.2 ||
      (stepStat i (stepStat d (stepStat s rem).2.1).2.1).2.2 ||
      (stepStat c (stepStat i (stepStat d (stepStat s rem).2.1).2.1).2.1).2.2) := rfl
  rw [p1, p2, p3, p4, p5, p6]
  refine ⟨g1, g2, g3, g4, g5, g6, g7, g8, by omega, ?_⟩
  by_cases hb1 : (stepStat s rem).2.2 = true
  · rw [hb1]
    simp only [Bool.true_or]
  by_cases hb2 : (stepStat d (stepStat s rem).2.1).2.2 = true
  · rw [hb2]
    simp only [Bool.or_true, Bool.true_or]
  by_cases hb3 : (stepStat i (stepStat d (stepStat s rem).2.1).2.1).2.2 = true
  · rw [hb3]
    simp only [Bool.or_true, Bool.true_or]
  by_cases hb4 :
      (stepStat c (stepStat i (stepStat d (stepStat s rem).2.1).2.1).2.1).2.2 = true
  · rw [hb4]
    simp only [Bool.or_true]
  exfalso
  rw [Bool.not_eq_true] at hb1 hb2 hb3 hb4
  obtain ⟨u1, u2, u3, u4⟩ := f1 hb1
  obtain ⟨u5, u6, u7, u8⟩ := f2 hb2
  obtain ⟨u9, u10, u11, u12⟩ := f3 hb3
  obtain ⟨u13, u14, u15, u16⟩ := f4 hb4
  rw [u2] at u6 u7 u8 u10 u11 u12 u14 u15 u16
  rw [u6] at u10 u11 u12 u14 u15 u16
  rw [u10] at u14 u15 u16
  clear e1 e2 e3 e4 f1 f2 f3 f4 bd1 bd2 bd3 bd4 p1 p2 p3 p4 p5 p6
  clear g1 g2 g3 g4 g5 g6 g7 g8 hb1 hb2 hb3 hb4 u1 u2 u5 u6 u9 u10 u13 u14
  simp only [STAT_MIN, STAT_MAX, STAT_POINTS_TOTAL] at u3 u4 u7 u8 u11 u12 u15 u16 hs1 hs2 hd1 hd2 hi1 hi2 hc1 hc2 hsum
  omega

/-- Second copy of the per-stat step, transcribed from the duplicated
normalization block in `generateRandomCharacterDetails`
(geminiService.ts lines 381-402). -/
def stepStatRandom (v rem : Int) : Int × Int × Bool :=
  if rem > 0 ∧ v < STAT_MAX then (v + 1, rem - 1, true)
  else if rem < 0 ∧ v > STAT_MIN then (v - 1, rem + 1, true)
  else (v, rem, false)

/-- Second copy of the full pass, from `generateRandomCharacterDetails`. -/
def passStatsRandom (s d i c rem : Int) : (Int × Int × Int × Int) × Int × Bool :=
  let r1 := stepStatRandom s rem
  let r2 := stepStatRandom d r1.2.1
  let r3 := stepStatRandom i r2.2.1
  let r4 := stepStatRandom c r3.2.1
  ((r1.1, r2.1, r3.1, r4.1), r4.2.1, r1.2.2 || r2.2.2 || r3.2.2 || r4.2.2)

/-- The two per-stat steps are the same function. -/
theorem stepStatRandom_eq : stepStatRandom = stepStat := rfl

/-- The two pass functions are the same function. -/
theorem passStatsRandom_eq : passStatsRandom = passStats := by
  funext s d i c rem
  simp only [passStatsRandom, passStats, stepStatRandom_eq]

/-- Termination measure for the duplicated loop. -/
theorem passStatsRandom_changed_lt (s d i c rem : Int)
    (h : (passStatsRandom s d i c rem).2.2 = true) :
    (passStatsRandom s d i c rem).2.1.natAbs < rem.natAbs := by
  rw [passStatsRandom_eq] at h ⊢
  exact passStats_changed_lt s d i c rem h

/-- Second copy of the `while (remainingPoints !== 0)` loop, from
`generateRandomCharacterDetails`. -/
def distributeStatsRandom (s d i c rem : Int) : Int × Int × Int × Int :=
  if rem = 0 then (s, d, i, c)
  else
    let p := passStatsRandom s d i c rem
    if h : p.2.2 = true then
      distributeStatsRandom p.1.1 p.1.2.1 p.1.2.2.1 p.1.2.2.2 p.2.1
    else p.1
termination_by rem.natAbs
decreasing_by exact passStatsRandom_changed_lt s d i c rem h

/-- Second copy of the per-stat clamp, from `generateRandomCharacterDetails`
(lines 366-369). -/
def clampStatRandom (v : Int) : Int := max STAT_MIN (min STAT_MAX v)

/-- The stat normalization of `generateRandomCharacterDetails`
(lines 363-402), a verbatim duplicate of the one in
`generateCharacterFromImage`. -/
def normalizeStatsRandom (strength dexterity intelligence charisma : Int) :
    Int × Int × Int × Int :=
  let s := clampStatRandom strength
  let d := clampStatRandom dexterity
  let i := clampStatRandom intelligence
  let c := clampStatRandom charisma
  distributeStatsRandom s d i c (STAT_POINTS_TOTAL - (s + d + i + c))

/-- The two loop copies agree everywhere (strong induction on `|rem|`). -/
theorem distributeStatsRandom_eq : ∀ (n : Nat) (s d i c rem : Int), rem.natAbs ≤ n →
    distributeStatsRandom s d i c rem = distributeStats s d i c rem := by
  intro n
  induction n with
  | zero =>
    intro s d i c rem hn
    have hrem : rem = 0 := by omega
    subst hrem
    rw [distributeStatsRandom, distributeStats]
    simp
  | succ n ih =>
    intro s d i c rem hn
    by_cases hrem : rem = 0
    · subst hrem
      rw [distributeStatsRandom, distributeStats]
      simp
    · rw [distributeStatsRandom, distributeStats]
      simp only [if_neg hrem, passStatsRandom_eq]
      by_cases hch : (passStats s d i c rem).2.2 = true
      · have hlt := passStats_changed_lt s d i c rem hch
        rw [dif_pos hch, dif_pos hch]
        exact ih _ _ _ _ _ (by omega)
      · rw [dif_neg hch, dif_neg hch]

/-- On feasible (clamped) inputs the adjustment loop drives `remainingPoints`
to 0: the result stays in bounds and sums to exactly `STAT_POINTS_TOTAL`.
Stated with an explicit bound `n` on `|rem|` for the strong induction. -/
theorem distributeStats_spec : ∀ (n : Nat) (s d i c rem : Int), rem.natAbs ≤ n →
    STAT_MIN ≤ s → s ≤ STAT_MAX → STAT_MIN ≤ d → d ≤ STAT_MAX →
    STAT_MIN ≤ i → i ≤ STAT_MAX → STAT_MIN ≤ c → c ≤ STAT_MAX →
    s + d + i + c + rem = STAT_POINTS_TOTAL →
    STAT_MIN ≤ (distributeStats s d i c rem).1 ∧ (distributeStats s d i c rem).1 ≤ STAT_MAX ∧
    STAT_MIN ≤ (distributeStats s d i c rem).2.1 ∧ (distributeStats s d i c rem).2.1 ≤ STAT_MAX ∧
    STAT_MIN ≤ (distributeStats s d i c rem).2.2.1 ∧ (distributeStats s d i c rem).2.2.1 ≤ STAT_MAX ∧
    STAT_MIN ≤ (distributeStats s d i c rem).2.2.2 ∧ (distributeStats s d i c rem).2.2.2 ≤ STAT_MAX ∧
    (distributeStats s d i c rem).1 + (distributeStats s d i c rem).2.1 +
      (distributeStats s d i c rem).2.2.1 + (distributeStats s d i c rem).2.2.2 =
      STAT_POINTS_TOTAL := by
  intro n
  induction n with
  | zero =>
    intro s d i c rem hn hs1 hs2 hd1 hd2 hi1 hi2 hc1 hc2 hsum
    have hrem : rem = 0 := by omega
    subst hrem
    rw [distributeStats_zero]
    exact ⟨hs1, hs2, hd1, hd2, hi1, hi2, hc1, hc2, by show s + d + i + c = _; omega⟩
  | succ n ih =>
    intro s d i c rem hn hs1 hs2 hd1 hd2 hi1 hi2 hc1 hc2 hsum
    by_cases hrem : rem = 0
    · subst hrem
      rw [distributeStats_zero]
      exact ⟨hs1, hs2, hd1, hd2, hi1, hi2, hc1, hc2, by show s + d + i + c = _; omega⟩
    · obtain ⟨b1, b2, b3, b4, b5, b6, b7, b8, binv, bch⟩ :=
        passStats_spec s d i c rem hs1 hs2 hd1 hd2 hi1 hi2 hc1 hc2 hsum hrem
      have hlt := passStats_changed_lt s d i c rem bch
      rw [distributeStats_changed s d i c rem hrem bch]
      exact ih _ _ _ _ _ (by omega) b1 b2 b3 b4 b5 b6 b7 b8 binv

/-- With at least `|rem|` units of fuel, the fuel-bounded loop computes the
same answer as the unbounded `while` loop: the loop exits within `|rem|`
passes. -/
theorem distributeStatsFuel_eq : ∀ (n : Nat) (s d i c rem : Int), rem.natAbs ≤ n →
    distributeStatsFuel n s d i c rem = distributeStats s d i c rem := by
  intro n
  induction n with
  | zero =>
    intro s d i c rem hn
    have hrem : rem = 0 := by omega
    subst hrem
    rw [distributeStats_zero, distributeStatsFuel]
  | succ n ih =>
    intro s d i c rem hn
    by_cases hrem : rem = 0
    · subst hrem
      rw [distributeStats_zero, distributeStatsFuel]
      simp
    · rw [distributeStatsFuel]
      simp only [if_neg hrem]
      by_cases hch : (passStats s d i c rem).2.2 = true
      · have hlt := passStats_changed_lt s d i c rem hch
        rw [if_pos hch, distributeStats_changed s d i c rem hrem hch]
        exact ih _ _ _ _ _ (by omega)
      · rw [if_neg hch, distributeStats_stuck s d i c rem hrem hch]

/-! ## Data model (src/unnamed/part_000, the `types.ts` of the repository) -/

/-- `Character` record. -/
structure Character where
  name : String
  appearanceDescription : String
  strength : Int
  dexterity : Int
  intelligence : Int
  charisma : Int
  portraitImageUrl : Option String := none
deriving DecidableEq

/-- `Scene` record. -/
structure Scene where
  id : String
  description : String
  imagePrompt : String
  imageUrl : Option String := none
  choices : List String
  isEnding : Bool
deriving DecidableEq

/-- The `role` of a history entry: `'user' | 'model'`. -/
inductive Role where
  | user
  | model
deriving DecidableEq

/-- One element of `GameState.history`: `{ role, text }`. -/
structure HistoryEntry where
  role : Role
  text : String
deriving DecidableEq

/-- `GameState.status`:
`'IDLE' | 'CHARACTER_CREATION' | 'STARTING' | 'PLAYING' | 'LOADING_NEXT'`. -/
inductive GameStatus where
  | IDLE
  | CHARACTER_CREATION
  | STARTING
  | PLAYING
  | LOADING_NEXT
deriving DecidableEq

/-- `GameState` record. -/
structure GameState where
  originalStory : String
  history : List HistoryEntry
  currentScene : Option Scene
  status : GameStatus
  character : Option Character
deriving DecidableEq

/-- `AIResponse` record: the structured output of the scene-text call. -/
structure AIResponse where
  sceneDescription : String
  imagePrompt : String
  suggestedChoices : List String
  isEnding : Bool
deriving DecidableEq

/-! ## Turn orchestration (src/services/geminiService.ts)

The remote provider is modelled by passing each call's outcome as an
argument: an `Except ApiError _` for a call that can throw, and plain data
for the values a successful call returns.  `Math.random`-derived fresh
strings (scene ids, placeholder seeds) are likewise passed in. -/

/-- Failures thrown by provider calls.  `handleApiError` distinguishes
exactly one shape: `error?.error?.code === 429` (quota); everything else is
generic. -/
inductive ApiError where
  | quota
  | other
deriving DecidableEq

/-- One `part` of an image-call response: its optional `inlineData`
payload (the base64 image data).  An absent `candidates[0].content.parts`
chain is modelled as the empty part list (the source coalesces it with
`|| []`). -/
structure ImagePart where
  inlineData : Option String
deriving DecidableEq

/-- The picsum placeholder URL built in `generateSceneImage`
(line 129), with the `Math.random()` seed passed in. -/
def placeholderUrl (seed : String) : String :=
  "https://picsum.photos/seed/" ++ seed ++ "/1200/675"

/-- `generateSceneImage` (geminiService.ts lines 106-130): try the
illustration call; scan the response parts for the first `inlineData` and
return it as a data URL; on any thrown error, or when no part carries
inline data, return the placeholder URL.  Total: it never fails. -/
def generateSceneImage (callResult : Except ApiError (List ImagePart))
    (seed : String) : String :=
  match callResult with
  | .ok parts =>
    match parts.findSome? (fun p => p.inlineData) with
    | some data => "data:image/png;base64," ++ data
    | none => placeholderUrl seed
  | .error _ => placeholderUrl seed

/-- `generateNextScene` (lines 59-104): the structured text call either
throws (its failure propagates) or yields an `AIResponse`; then the scene
image is produced by `generateSceneImage` (which cannot fail) and the Scene
is assembled with a fresh id. -/
def generateNextScene (textResult : Except ApiError AIResponse)
    (imageCallResult : Except ApiError (List ImagePart))
    (seed id : String) : Except ApiError Scene :=
  match textResult with
  | .error e => .error e
  | .ok data =>
    .ok { id := id
          description := data.sceneDescription
          imagePrompt := data.imagePrompt
          imageUrl := some (generateSceneImage imageCallResult seed)
          choices := data.suggestedChoices
          isEnding := data.isEnding }

/-- Post-processing of `generateCharacterFromImage` (lines 133-229) after a
successful profile call: normalize the four stats and attach the original
input image as the portrait data URL. -/
def generateCharacterFromImage (generatedData : Character)
    (base64ImageData mimeType : String) : Character :=
  let r := normalizeStats generatedData.strength generatedData.dexterity
    generatedData.intelligence generatedData.charisma
  { generatedData with
    strength := r.1
    dexterity := r.2.1
    intelligence := r.2.2.1
    charisma := r.2.2.2
    portraitImageUrl := some ("data:" ++ mimeType ++ ";base64," ++ base64ImageData) }

/-- Post-processing of `generateRandomCharacterDetails` (lines 335-416)
after a successful profile call: normalize the stats with the duplicated
copy of the algorithm, apply the `|| 'Random Hero'` name and
`|| 'A mysterious figure ready for adventure.'` description fallbacks
(JavaScript falsiness of the empty string), and attach the separately
generated portrait. -/
def generateRandomCharacterDetails (generatedData : Character)
    (portraitImageUrl : String) : Character :=
  let r := normalizeStatsRandom generatedData.strength generatedData.dexterity
    generatedData.intelligence generatedData.charisma
  { name := if generatedData.name = "" then "Random Hero" else generatedData.name
    appearanceDescription :=
      if generatedData.appearanceDescription = "" then
        "A mysterious figure ready for adventure."
      else generatedData.appearanceDescription
    strength := r.1
    dexterity := r.2.1
    intelligence := r.2.2.1
    charisma := r.2.2.2
    portraitImageUrl := some portraitImageUrl }

/-! ## Session state machine and persistence (src/unnamed/part_002, the App
component)

React `setGameState(prev => ...)` updates are applied in order to an
explicit state value; `gameState.x` reads inside a callback refer to the
state captured when the callback was created (the pre-attempt state), while
`prev` is the state at application time — on the single-threaded paths
modelled here the two coincide except where noted. -/

/-- The initial `useState` value (part_002 lines 12-18), also the reset
object installed by `loadGame`'s catch branch (lines 77-83). -/
def initialGameState : GameState :=
  { originalStory := ""
    history := []
    currentScene := none
    status := GameStatus.IDLE
    character := none }

/-- `handleApiError` (lines 106-123): both the 429 (quota) branch and the
generic branch end with `setGameState(prev => ({ ...prev, status: 'IDLE' }))`;
the branches differ only in side effects (alert text, key-selection
dialog). -/
def handleApiError (e : ApiError) (st : GameState) : GameState :=
  match e with
  | .quota => { st with status := GameStatus.IDLE }
  | .other => { st with status := GameStatus.IDLE }

/-- `handleStartGame` (lines 126-152).  `story` is the submitted seed;
`randomStory` and `randomCharacter` are what `generateRandomStory` /
`generateRandomCharacterDetails` would return if consulted; `result` is the
outcome of the whole fallible provider sequence, ending with
`generateNextScene` (any throw inside the `try` lands in the same
catch). -/
def handleStartGame (st : GameState) (story randomStory : String)
    (randomCharacter : Character) (result : Except ApiError Scene) : GameState :=
  let st1 : GameState := { st with status := GameStatus.STARTING }
  let finalStory := if story.trim = "" then randomStory else story.trim
  let finalCharacter := st.character.getD randomCharacter
  match result with
  | .error e => handleApiError e st1
  | .ok initialScene =>
    { st1 with
      originalStory := finalStory
      character := some finalCharacter
      currentScene := some initialScene
      history := [{ role := Role.model, text := initialScene.description }]
      status := GameStatus.PLAYING }

/-- `handleNextTurn` (lines 154-183).  Returns the new state and whether a
provider call (`generateNextScene`) was issued.  The only refusal guard is
`if (!gameState.currentScene) return;`.  On success the user action and the
new narration are appended and the scene replaced; on failure
`handleApiError` runs first (setting `IDLE`) and then, because the captured
pre-attempt `gameState.currentScene` is non-null, the status is set back to
`PLAYING`. -/
def handleNextTurn (st : GameState) (action : String)
    (result : Except ApiError Scene) : GameState × Bool :=
  match st.currentScene with
  | none => (st, false)
  | some _ =>
    let st1 : GameState := { st with status := GameStatus.LOADING_NEXT }
    match result with
    | .ok nextScene =>
      ({ st1 with
          currentScene := some nextScene
          history := st1.history ++
            [{ role := Role.user, text := action },
             { role := Role.model, text := nextScene.description }]
          status := GameStatus.PLAYING }, true)
    | .error e =>
      let st2 := handleApiError e st1
      (if st.currentScene.isSome then { st2 with status := GameStatus.PLAYING } else st2,
       true)

/-- A sequence of successful turns: each element is the submitted action and
the scene the provider returned for it. -/
def runTurns (st : GameState) (turns : List (String × Scene)) : GameState :=
  turns.foldl (fun s t => (handleNextTurn s t.1 (Except.ok t.2)).1) st

/-- The object serialized by `saveGame` (lines 37-42). -/
structure SaveObject where
  originalStory : String
  history : List HistoryEntry
  currentScene : Option Scene
  character : Option Character
deriving DecidableEq

/-- Contents of the `chronicleWeaverSaveGame` localStorage slot.
`JSON.stringify` of a save object always parses back to the same object, so
a written slot is modelled as the object itself; `corrupt` stands for any
stored text on which `JSON.parse` (or reading the parsed fields) throws. -/
inductive StoredValue where
  | good (o : SaveObject)
  | corrupt
deriving DecidableEq

/-- Which of `loadGame`'s three user-visible outcomes occurred (its three
alert branches: loaded, no save found, corrupted save). -/
inductive LoadOutcome where
  | loaded
  | noSave
  | corruptData
deriving DecidableEq

/-- `saveGame` (lines 30-52): refuse when no scene is in progress, otherwise
overwrite the slot with the four persisted fields.  The in-memory
`GameState` is not touched. -/
def saveGame (st : GameState) (store : Option StoredValue) : Option StoredValue :=
  match st.currentScene with
  | none => store
  | some _ =>
    some (StoredValue.good
      { originalStory := st.originalStory
        history := st.history
        currentScene := st.currentScene
        character := st.character })

/-- `loadGame` (lines 54-85): on a readable slot, replace the session
wholesale with the stored fields, `status` forced to `'PLAYING'` and
`character` defaulted through `|| null`; with no slot, leave the state
alone; on a parse failure, clear the slot and install the fresh initial
state. -/
def loadGame (st : GameState) (store : Option StoredValue) :
    GameState × Option StoredValue × LoadOutcome :=
  match store with
  | some (StoredValue.good o) =>
    ({ originalStory := o.originalStory
       history := o.history
       currentScene := o.currentScene
       status := GameStatus.PLAYING
       character := o.character }, store, LoadOutcome.loaded)
  | none => (st, store, LoadOutcome.noSave)
  | some StoredValue.corrupt => (initialGameState, none, LoadOutcome.corruptData)

/-! ## Concrete example values used by witnesses and counterexamples -/

/-- A sample in-progress scene. -/
def exScene : Scene :=
  { id := "scn-1"
    description := "A quiet clearing."
    imagePrompt := "a quiet forest clearing"
    imageUrl := some "https://example.org/a.png"
    choices := ["Go north", "Rest"]
    isEnding := false }

/-- A sample scene returned by a later turn. -/
def exScene2 : Scene :=
  { id := "scn-2"
    description := "A river blocks the path."
    imagePrompt := "a wide river at dusk"
    imageUrl := some "https://example.org/b.png"
    choices := ["Swim", "Build a raft"]
    isEnding := false }

/-- A sample mid-game session state (status `PLAYING`, scene present). -/
def exPlayingState : GameState :=
  { originalStory := "An old tale"
    history := [{ role := Role.model, text := "A quiet clearing." }]
    currentScene := some exScene
    status := GameStatus.PLAYING
    character := none }

/-- The same session while a turn is in flight (status `LOADING_NEXT`). -/
def exLoadingState : GameState :=
  { exPlayingState with status := GameStatus.LOADING_NEXT }

/-! ## Support lemmas -/

/-- The clamp lands in `[STAT_MIN, STAT_MAX]`. -/
theorem clampStat_spec (v : Int) : STAT_MIN ≤ clampStat v ∧ clampStat v ≤ STAT_MAX := by
  unfold clampStat
  refine ⟨le_max_left _ _, max_le (by norm_num [STAT_MIN, STAT_MAX]) (min_le_left _ _)⟩

/-- The clamp is the identity on values already in bounds. -/
theorem clampStat_id (v : Int) (h1 : STAT_MIN ≤ v) (h2 : v ≤ STAT_MAX) :
    clampStat v = v := by
  unfold clampStat
  rw [min_eq_right h2, max_eq_right h1]

/-- The full normalization (clamp, then adjustment loop) always lands in
`[1,5]^4` with sum exactly 10, for arbitrary integer inputs. -/
theorem normalizeStats_spec (s d i c : Int) :
    (1 ≤ (normalizeStats s d i c).1 ∧ (normalizeStats s d i c).1 ≤ 5) ∧
    (1 ≤ (normalizeStats s d i c).2.1 ∧ (normalizeStats s d i c).2.1 ≤ 5) ∧
    (1 ≤ (normalizeStats s d i c).2.2.1 ∧ (normalizeStats s d i c).2.2.1 ≤ 5) ∧
    (1 ≤ (normalizeStats s d i c).2.2.2 ∧ (normalizeStats s d i c).2.2.2 ≤ 5) ∧
    (normalizeStats s d i c).1 + (normalizeStats s d i c).2.1 +
      (normalizeStats s d i c).2.2.1 + (normalizeStats s d i c).2.2.2 = 10 := by
  obtain ⟨a1, a2⟩ := clampStat_spec s
  obtain ⟨a3, a4⟩ := clampStat_spec d
  obtain ⟨a5, a6⟩ := clampStat_spec i
  obtain ⟨a7, a8⟩ := clampStat_spec c
  have key := distributeStats_spec
    (STAT_POINTS_TOTAL - (clampStat s + clampStat d + clampStat i + clampStat c)).natAbs
    (clampStat s) (clampStat d) (clampStat i) (clampStat c)
    (STAT_POINTS_TOTAL - (clampStat s + clampStat d + clampStat i + clampStat c))
    (le_refl _) a1 a2 a3 a4 a5 a6 a7 a8 (by ring)
  obtain ⟨k1, k2, k3, k4, k5, k6, k7, k8, k9⟩ := key
  simp only [STAT_MIN, STAT_MAX, STAT_POINTS_TOTAL] at k1 k2 k3 k4 k5 k6 k7 k8 k9
  simp only [normalizeStats]
  exact ⟨⟨k1, k2⟩, ⟨k3, k4⟩, ⟨k5, k6⟩, ⟨k7, k8⟩, k9⟩

/-! ## Claim theorems -/

/-- C1: for every quadruple of integer stat inputs in `[-100,100]^4` returned
by the provider, the stat normalization inside `generateCharacterFromImage`
produces four stats each in `[1,5]` whose sum is exactly 10. -/
theorem C1_stat_normalization_bounds_and_sum (generatedData : Character)
    (base64ImageData mimeType : String)
    (h1 : -100 ≤ generatedData.strength) (h2 : generatedData.strength ≤ 100)
    (h3 : -100 ≤ generatedData.dexterity) (h4 : generatedData.dexterity ≤ 100)
    (h5 : -100 ≤ generatedData.intelligence) (h6 : generatedData.intelligence ≤ 100)
    (h7 : -100 ≤ generatedData.charisma) (h8 : generatedData.charisma ≤ 100) :
    (1 ≤ (generateCharacterFromImage generatedData base64ImageData mimeType).strength ∧
      (generateCharacterFromImage generatedData base64ImageData mimeType).strength ≤ 5) ∧
    (1 ≤ (generateCharacterFromImage generatedData base64ImageData mimeType).dexterity ∧
      (generateCharacterFromImage generatedData base64ImageData mimeType).dexterity ≤ 5) ∧
    (1 ≤ (generateCharacterFromImage generatedData base64ImageData mimeType).intelligence ∧
      (generateCharacterFromImage generatedData base64ImageData mimeType).intelligence ≤ 5) ∧
    (1 ≤ (generateCharacterFromImage generatedData base64ImageData mimeType).charisma ∧
      (generateCharacterFromImage generatedData base64ImageData mimeType).charisma ≤ 5) ∧
    (generateCharacterFromImage generatedData base64ImageData mimeType).strength +
      (generateCharacterFromImage generatedData base64ImageData mimeType).dexterity +
      (generateCharacterFromImage generatedData base64ImageData mimeType).intelligence +
      (generateCharacterFromImage generatedData base64ImageData mimeType).charisma = 10 := by
  simp only [generateCharacterFromImage]
  exact normalizeStats_spec generatedData.strength generatedData.dexterity
    generatedData.intelligence generatedData.charisma

/-- Witness for C1 at the concrete provider output `(100, -100, 3, 7)`. -/
theorem C1_stat_normalization_bounds_and_sum_witness :
    (1 ≤ (generateCharacterFromImage
        { name := "Hero", appearanceDescription := "Tall", strength := 100,
          dexterity := -100, intelligence := 3, charisma := 7 } "imgdata" "image/png").strength ∧
      (generateCharacterFromImage
        { name := "Hero", appearanceDescription := "Tall", strength := 100,
          dexterity := -100, intelligence := 3, charisma := 7 } "imgdata" "image/png").strength ≤ 5) ∧
    (1 ≤ (generateCharacterFromImage
        { name := "Hero", appearanceDescription := "Tall", strength := 100,
          dexterity := -100, intelligence := 3, charisma := 7 } "imgdata" "image/png").dexterity ∧
      (generateCharacterFromImage
        { name := "Hero", appearanceDescription := "Tall", strength := 100,
          dexterity := -100, intelligence := 3, charisma := 7 } "imgdata" "image/png").dexterity ≤ 5) ∧
    (1 ≤ (generateCharacterFromImage
        { name := "Hero", appearanceDescription := "Tall", strength := 100,
          dexterity := -100, intelligence := 3, charisma := 7 } "imgdata" "image/png").intelligence ∧
      (generateCharacterFromImage
        { name := "Hero", appearanceDescription := "Tall", strength := 100,
          dexterity := -100, intelligence := 3, charisma := 7 } "imgdata" "image/png").intelligence ≤ 5) ∧
    (1 ≤ (generateCharacterFromImage
        { name := "Hero", appearanceDescription := "Tall", strength := 100,
          dexterity := -100, intelligence := 3, charisma := 7 } "imgdata" "image/png").charisma ∧
      (generateCharacterFromImage
        { name := "Hero", appearanceDescription := "Tall", strength := 100,
          dexterity := -100, intelligence := 3, charisma := 7 } "imgdata" "image/png").charisma ≤ 5) ∧
    (generateCharacterFromImage
        { name := "Hero", appearanceDescription := "Tall", strength := 100,
          dexterity := -100, intelligence := 3, charisma := 7 } "imgdata" "image/png").strength +
      (generateCharacterFromImage
        { name := "Hero", appearanceDescription := "Tall", strength := 100,
          dexterity := -100, intelligence := 3, charisma := 7 } "imgdata" "image/png").dexterity +
      (generateCharacterFromImage
        { name := "Hero", appearanceDescription := "Tall", strength := 100,
          dexterity := -100, intelligence := 3, charisma := 7 } "imgdata" "image/png").intelligence +
      (generateCharacterFromImage
        { name := "Hero", appearanceDescription := "Tall", strength := 100,
          dexterity := -100, intelligence := 3, charisma := 7 } "imgdata" "image/png").charisma = 10 :=
  C1_stat_normalization_bounds_and_sum
    { name := "Hero", appearanceDescription := "Tall", strength := 100,
      dexterity := -100, intelligence := 3, charisma := 7 } "imgdata" "image/png"
    (by decide) (by decide) (by decide) (by decide)
    (by decide) (by decide) (by decide) (by decide)

/-- C8: the stat normalization is idempotent — a quadruple already in
`[1,5]^4` summing to exactly 10 is returned unchanged. -/
theorem C8_stat_normalization_idempotent (s d i c : Int)
    (hs1 : 1 ≤ s) (hs2 : s ≤ 5) (hd1 : 1 ≤ d) (hd2 : d ≤ 5)
    (hi1 : 1 ≤ i) (hi2 : i ≤ 5) (hc1 : 1 ≤ c) (hc2 : c ≤ 5)
    (hsum : s + d + i + c = 10) :
    normalizeStats s d i c = (s, d, i, c) := by
  have m1 : clampStat s = s := clampStat_id s (by norm_num [STAT_MIN]; omega) (by norm_num [STAT_MAX]; omega)
  have m2 : clampStat d = d := clampStat_id d (by norm_num [STAT_MIN]; omega) (by norm_num [STAT_MAX]; omega)
  have m3 : clampStat i = i := clampStat_id i (by norm_num [STAT_MIN]; omega) (by norm_num [STAT_MAX]; omega)
  have m4 : clampStat c = c := clampStat_id c (by norm_num [STAT_MIN]; omega) (by norm_num [STAT_MAX]; omega)
  simp only [normalizeStats, m1, m2, m3, m4]
  have h0 : STAT_POINTS_TOTAL - (s + d + i + c) = 0 := by
    norm_num [STAT_POINTS_TOTAL]; omega
  rw [h0, distributeStats_zero]

/-- Witness for C8 at the concrete valid quadruple `(2, 3, 3, 2)`. -/
theorem C8_stat_normalization_idempotent_witness :
    normalizeStats 2 3 3 2 = (2, 3, 3, 2) :=
  C8_stat_normalization_idempotent 2 3 3 2
    (by decide) (by decide) (by decide) (by decide)
    (by decide) (by decide) (by decide) (by decide) (by decide)

/-- C9: the adjustment loop terminates within a bounded number of passes for
every integer input quadruple — any fuel of at least 16 passes (4 × the
bound range) already yields the loop's final answer on the clamped
values. -/
theorem C9_stat_normalization_loop_bounded (s d i c : Int) (fuel : Nat)
    (hfuel : 16 ≤ fuel) :
    distributeStatsFuel fuel (clampStat s) (clampStat d) (clampStat i) (clampStat c)
      (STAT_POINTS_TOTAL - (clampStat s + clampStat d + clampStat i + clampStat c)) =
    normalizeStats s d i c := by
  obtain ⟨a1, a2⟩ := clampStat_spec s
  obtain ⟨a3, a4⟩ := clampStat_spec d
  obtain ⟨a5, a6⟩ := clampStat_spec i
  obtain ⟨a7, a8⟩ := clampStat_spec c
  have hr : (STAT_POINTS_TOTAL -
      (clampStat s + clampStat d + clampStat i + clampStat c)).natAbs ≤ fuel := by
    simp only [STAT_MIN, STAT_MAX] at a1 a2 a3 a4 a5 a6 a7 a8
    simp only [STAT_POINTS_TOTAL]
    omega
  rw [distributeStatsFuel_eq fuel _ _ _ _ _ hr]
  simp only [normalizeStats]

/-- Witness for C9 at the concrete input `(7, -3, 2, 9)` with exactly 16
units of fuel. -/
theorem C9_stat_normalization_loop_bounded_witness :
    distributeStatsFuel 16 (clampStat 7) (clampStat (-3)) (clampStat 2) (clampStat 9)
      (STAT_POINTS_TOTAL - (clampStat 7 + clampStat (-3) + clampStat 2 + clampStat 9)) =
    normalizeStats 7 (-3) 2 9 :=
  C9_stat_normalization_loop_bounded 7 (-3) 2 9 16 (by decide)

/-- C10: the two verbatim copies of the stat-normalization procedure — in
`generateCharacterFromImage` and in `generateRandomCharacterDetails` —
compute the same function on every integer input quadruple. -/
theorem C10_duplicated_normalizers_agree (s d i c : Int) :
    normalizeStats s d i c = normalizeStatsRandom s d i c := by
  have hc : clampStatRandom = clampStat := rfl
  simp only [normalizeStats, normalizeStatsRandom, hc]
  rw [distributeStatsRandom_eq
    (STAT_POINTS_TOTAL - (clampStat s + clampStat d + clampStat i + clampStat c)).natAbs
    _ _ _ _ _ (le_refl _)]

/-- C2 (counterexample): a quota (429) failure during a turn does NOT leave
the session at `IDLE` — `handleApiError`'s `IDLE` assignment is overwritten
by the catch block's `PLAYING` reset because the pre-attempt scene exists. -/
theorem C2_quota_failure_not_idle_counterexample :
    (handleNextTurn exPlayingState "Rest" (Except.error ApiError.quota)).1.status ≠
      GameStatus.IDLE := by
  decide

/-- C2 (amended): any `generateNextScene` failure during an in-flight turn —
quota failures included — leaves `history` and `currentScene` byte-for-byte
at their pre-attempt values and returns the status to `PLAYING`. -/
theorem C2_turn_failure_preserves_state (st : GameState) (action : String)
    (e : ApiError) (sc : Scene) (h : st.currentScene = some sc) :
    (handleNextTurn st action (Except.error e)).1.history = st.history ∧
    (handleNextTurn st action (Except.error e)).1.currentScene = st.currentScene ∧
    (handleNextTurn st action (Except.error e)).1.status = GameStatus.PLAYING := by
  cases e <;> simp [handleNextTurn, handleApiError, h]

/-- Witness for the amended C2 at a concrete mid-game state and quota
error. -/
theorem C2_turn_failure_preserves_state_witness :
    (handleNextTurn exPlayingState "Rest" (Except.error ApiError.quota)).1.history =
      exPlayingState.history ∧
    (handleNextTurn exPlayingState "Rest" (Except.error ApiError.quota)).1.currentScene =
      exPlayingState.currentScene ∧
    (handleNextTurn exPlayingState "Rest" (Except.error ApiError.quota)).1.status =
      GameStatus.PLAYING :=
  C2_turn_failure_preserves_state exPlayingState "Rest" ApiError.quota exScene rfl

/-- C3: for every game state with a non-null `currentScene`, loading right
after saving reproduces `originalStory`, `history`, `currentScene` and
`character` exactly, and the status after load is `PLAYING` — from any
in-memory state at load time and any prior slot contents. -/
theorem C3_save_load_round_trip (st st2 : GameState) (store : Option StoredValue)
    (sc : Scene) (h : st.currentScene = some sc) :
    (loadGame st2 (saveGame st store)).1.originalStory = st.originalStory ∧
    (loadGame st2 (saveGame st store)).1.history = st.history ∧
    (loadGame st2 (saveGame st store)).1.currentScene = st.currentScene ∧
    (loadGame st2 (saveGame st store)).1.character = st.character ∧
    (loadGame st2 (saveGame st store)).1.status = GameStatus.PLAYING := by
  simp [saveGame, loadGame, h]

/-- Witness for C3: save the sample mid-game state over an empty slot, then
load into a fresh session. -/
theorem C3_save_load_round_trip_witness :
    (loadGame initialGameState (saveGame exPlayingState none)).1.originalStory =
      exPlayingState.originalStory ∧
    (loadGame initialGameState (saveGame exPlayingState none)).1.history =
      exPlayingState.history ∧
    (loadGame initialGameState (saveGame exPlayingState none)).1.currentScene =
      exPlayingState.currentScene ∧
    (loadGame initialGameState (saveGame exPlayingState none)).1.character =
      exPlayingState.character ∧
    (loadGame initialGameState (saveGame exPlayingState none)).1.status =
      GameStatus.PLAYING :=
  C3_save_load_round_trip exPlayingState initialGameState none exScene rfl

/-- C4: `generateSceneImage` never fails — it yields either a real inline
data URL or the placeholder — and every Scene successfully returned by
`generateNextScene` carries that (non-absent) image reference. -/
theorem C4_scene_image_never_absent (textResult : Except ApiError AIResponse)
    (imageCallResult : Except ApiError (List ImagePart)) (seed id : String)
    (sc : Scene)
    (h : generateNextScene textResult imageCallResult seed id = Except.ok sc) :
    sc.imageUrl = some (generateSceneImage imageCallResult seed) ∧
    ((∃ dat, generateSceneImage imageCallResult seed = "data:image/png;base64," ++ dat) ∨
      generateSceneImage imageCallResult seed = placeholderUrl seed) := by
  constructor
  · cases textResult with
    | error e => simp [generateNextScene] at h
    | ok data =>
      simp only [generateNextScene, Except.ok.injEq] at h
      subst h
      rfl
  · cases imageCallResult with
    | error e => exact Or.inr rfl
    | ok parts =>
      cases hfind : parts.findSome? (fun p => p.inlineData) with
      | none =>
        refine Or.inr ?_
        simp [generateSceneImage, hfind]
      | some dat =>
        refine Or.inl ⟨dat, ?_⟩
        simp [generateSceneImage, hfind]

/-- Witness for C4: a successful text call paired with a failed image call
yields a scene whose image is the placeholder. -/
theorem C4_scene_image_never_absent_witness :
    ({ id := "i1", description := "desc", imagePrompt := "prompt",
       imageUrl := some (placeholderUrl "s1"), choices := ["Look"],
       isEnding := false } : Scene).imageUrl =
      some (generateSceneImage (Except.error ApiError.other) "s1") ∧
    ((∃ dat, generateSceneImage (Except.error ApiError.other) "s1" =
        "data:image/png;base64," ++ dat) ∨
      generateSceneImage (Except.error ApiError.other) "s1" = placeholderUrl "s1") :=
  C4_scene_image_never_absent
    (Except.ok { sceneDescription := "desc", imagePrompt := "prompt",
                 suggestedChoices := ["Look"], isEnding := false })
    (Except.error ApiError.other) "s1" "i1" _ rfl

/-- C5 (counterexample): after loading from a corrupted slot the in-memory
session does NOT remain at its pre-load state — it is reset wholesale. -/
theorem C5_corrupt_load_counterexample :
    (loadGame exPlayingState (some StoredValue.corrupt)).1 ≠ exPlayingState := by
  decide

/-- C5 (amended): loading from a corrupted slot reports the corrupt-data
error and clears the slot, but resets the in-memory session to the initial
empty `IDLE` state rather than leaving it at its pre-load state. -/
theorem C5_corrupt_load_resets_session (st : GameState) :
    loadGame st (some StoredValue.corrupt) =
      (initialGameState, none, LoadOutcome.corruptData) := rfl

/-- C6 (counterexample): with a turn already in flight
(status `LOADING_NEXT`, scene present), a direct `handleNextTurn`
invocation is NOT refused — it issues a second provider call and changes
the game state. -/
theorem C6_inflight_turn_not_refused_counterexample :
    (handleNextTurn exLoadingState "Go north" (Except.ok exScene2)).2 = true ∧
    (handleNextTurn exLoadingState "Go north" (Except.ok exScene2)).1 ≠ exLoadingState := by
  decide

/-- C6 (amended): `handleNextTurn`'s only refusal guard is the missing
scene: it refuses (no provider call, state unchanged) exactly when
`currentScene` is null, regardless of status — the single-flight discipline
is enforced by the UI disabling submission while loading, not by this
guard. -/
theorem C6_turn_refusal_iff_no_scene (st : GameState) (action : String)
    (result : Except ApiError Scene) :
    handleNextTurn st action result = (st, false) ↔ st.currentScene = none := by
  cases hsc : st.currentScene with
  | none => simp [handleNextTurn, hsc]
  | some sc =>
    cases result with
    | ok nextScene => simp [handleNextTurn, hsc, Prod.ext_iff]
    | error e => cases e <;> simp [handleNextTurn, handleApiError, hsc, Prod.ext_iff]

/-- Running successful turns from any state with a scene appends one
user/narrator pair per turn, keeps a scene present, and grows the history by
exactly two entries per turn. -/
theorem runTurns_history_spec (turns : List (String × Scene)) : ∀ st : GameState,
    st.currentScene.isSome = true →
    (runTurns st turns).history =
      st.history ++ (turns.bind fun t =>
        [{ role := Role.user, text := t.1 },
         { role := Role.model, text := t.2.description }]) ∧
    (runTurns st turns).currentScene.isSome = true ∧
    (runTurns st turns).history.length = st.history.length + 2 * turns.length := by
  induction turns with
  | nil =>
    intro st h
    simp [runTurns, h]
  | cons t rest ih =>
    intro st h
    obtain ⟨sc, hsc⟩ := Option.isSome_iff_exists.mp h
    have hstep : runTurns st (t :: rest) =
        runTurns (handleNextTurn st t.1 (Except.ok t.2)).1 rest := rfl
    have h1 : (handleNextTurn st t.1 (Except.ok t.2)).1.history =
        st.history ++ [{ role := Role.user, text := t.1 },
                       { role := Role.model, text := t.2.description }] := by
      simp [handleNextTurn, hsc]
    have h2 : (handleNextTurn st t.1 (Except.ok t.2)).1.currentScene = some t.2 := by
      simp [handleNextTurn, hsc]
    have hn : (handleNextTurn st t.1 (Except.ok t.2)).1.currentScene.isSome = true := by
      rw [h2]
      rfl
    obtain ⟨ih1, ih2, ih3⟩ := ih _ hn
    refine ⟨?_, ?_, ?_⟩
    · rw [hstep, ih1, h1]
      simp [List.cons_bind]
    · rw [hstep]
      exact ih2
    · rw [hstep, ih3, h1]
      simp [List.length_append]
      omega

/-- C7: after a successful session start followed by N successful turns, the
history is exactly the opening narrator entry followed by N user/narrator
pairs in order — in particular it has exactly `1 + 2N` entries. -/
theorem C7_history_shape (st : GameState) (story randomStory : String)
    (randomCharacter : Character) (s0 : Scene) (turns : List (String × Scene)) :
    (runTurns (handleStartGame st story randomStory randomCharacter (Except.ok s0))
        turns).history =
      { role := Role.model, text := s0.description } ::
        (turns.bind fun t =>
          [{ role := Role.user, text := t.1 },
           { role := Role.model, text := t.2.description }]) ∧
    (runTurns (handleStartGame st story randomStory randomCharacter (Except.ok s0))
        turns).history.length = 1 + 2 * turns.length := by
  have hhist : (handleStartGame st story randomStory randomCharacter
      (Except.ok s0)).history = [{ role := Role.model, text := s0.description }] := by
    simp [handleStartGame]
  have hsc : (handleStartGame st story randomStory randomCharacter
      (Except.ok s0)).currentScene.isSome = true := by
    simp [handleStartGame]
  obtain ⟨r1, -, r3⟩ := runTurns_history_spec turns _ hsc
  refine ⟨?_, ?_⟩
  · rw [r1, hhist]
    simp
  · rw [r3, hhist]
    simp
